import Mathlib

/-!
Shallow embedding of the OCX kernel enforcement engine.

Source files embedded here:
* `src/ebpf/interceptor.bpf.c` — the LSM enforcement hooks
  (`ocx_enforce_send`, `ocx_enforce_connect`), the exit cleanup hook
  (`handle_exit`) and the exec-capture hook (`capture_binary_hash`),
  together with the BPF maps they touch (`verdict_cache`,
  `identity_cache`, `trust_cache`, `tool_registry`, `entitlement_cache`)
  and the two ring buffers (`events`, `escrow_events`).
* `src/ebpf/identity_map_core.bpf.c` — the identity propagation hooks
  (`trace_fork`, `trace_exec`, `trace_exit`) over `pid_identity_map`,
  with their perf events.

Modelling conventions:
* BPF hash maps become total functions `Nat → Option v`; per-key
  lookup/update/delete are the obvious operations (`mapUpdate`,
  `mapDelete`).  Map capacity limits (`max_entries`) are not modelled.
* u32/u64 fields become `Nat`; the one place the C multiplies two u64
  values (`capture_binary_hash`) reduces the product `% 2 ^ 64`.
* Ring-buffer output becomes a returned list of events.  The C only
  writes an event when `bpf_ringbuf_reserve` succeeds; the environment
  carries one Bool per ring buffer (`events_ok`, `escrow_ok`) recording
  whether the reservation succeeds, mirroring the `if (event)` guards.
  Perf-event output (`bpf_perf_event_output` in identity_map_core) has
  no such guard in the C and always emits.
* `bpf_get_current_pid_tgid`, `bpf_get_current_cgroup_id` and
  `bpf_ktime_get_ns` become fields of an environment record.
* Linux errno values: EPERM = 1, EAGAIN = 11; the hooks return the
  negated errno, as the C does.
* `socket_event`'s `src_ip`, `dst_ip`, `src_port`, `dst_port` and
  `protocol` fields are declared in the C struct but never written by
  any path of `ocx_enforce_send`; they are omitted from the embedded
  record.
-/

namespace OCX

/-- Verdict constants (interceptor.bpf.c lines 12-14). -/
def ACTION_ALLOW : Nat := 0

def ACTION_BLOCK : Nat := 1

def ACTION_HOLD : Nat := 2

/-- Action classification constants (interceptor.bpf.c lines 65-66). -/
def CLASS_A : Nat := 0

def CLASS_B : Nat := 1

/-- Linux errno: operation not permitted. -/
def EPERM : Int := 1

/-- Linux errno: try again. -/
def EAGAIN : Int := 11

/-- `bpf_map_update_elem` with flag BPF_ANY on a hash map. -/
def mapUpdate {α : Type} (m : Nat → Option α) (k : Nat) (v : α) :
    Nat → Option α :=
  fun p => if p = k then some v else m p

/-- `bpf_map_delete_elem` on a hash map. -/
def mapDelete {α : Type} (m : Nat → Option α) (k : Nat) :
    Nat → Option α :=
  fun p => if p = k then none else m p

/-- Identity value stored in `identity_cache` (interceptor.bpf.c lines 33-36). -/
structure identity_t where
  binary_hash : Nat
  tenant_id : Nat
deriving DecidableEq

/-- Tool metadata stored in `tool_registry` (interceptor.bpf.c lines 69-77). -/
structure tool_meta_t where
  tool_id_hash : Nat
  action_class : Nat
  reversibility_index : Nat
  min_reputation_score : Nat
  governance_tax_mult : Nat
  required_entitlements : Nat
  hitl_required : Nat
deriving DecidableEq

/-- Escrow event submitted to the `escrow_events` ring buffer
(interceptor.bpf.c lines 103-119). -/
structure escrow_event where
  pid : Nat
  tid : Nat
  cgroup_id : Nat
  timestamp : Nat
  tool_id_hash : Nat
  action_class : Nat
  tenant_id : Nat
  binary_hash : Nat
  trust_level : Nat
  reversibility_index : Nat
  required_entitlements : Nat
  present_entitlements : Nat
  entitlement_valid : Nat
  data_size : Nat
  verdict : Nat
deriving DecidableEq

/-- Enforcement audit event submitted to the `events` ring buffer
(interceptor.bpf.c lines 125-141, fields written by the hooks only). -/
structure socket_event where
  pid : Nat
  tid : Nat
  cgroup_id : Nat
  timestamp : Nat
  binary_hash : Nat
  tenant_id : Nat
  action : Nat
  trust_level : Nat
  data_size : Nat
  blocked : Nat
deriving DecidableEq

/-- The BPF maps declared by interceptor.bpf.c. -/
structure State where
  verdict_cache : Nat → Option Nat
  identity_cache : Nat → Option identity_t
  trust_cache : Nat → Option Nat
  tool_registry : Nat → Option tool_meta_t
  entitlement_cache : Nat → Option Nat

/-- Per-invocation kernel context: current pid/tid (`bpf_get_current_pid_tgid`),
cgroup id, clock, and whether each ring-buffer reservation succeeds. -/
structure Env where
  pid : Nat
  tid : Nat
  cgroup_id : Nat
  timestamp : Nat
  events_ok : Bool
  escrow_ok : Bool

/-- `ocx_enforce_send` (interceptor.bpf.c lines 147-285): LSM hook on
`socket_sendmsg`.  Returns the hook's return value together with the
events submitted on the `events` and `escrow_events` ring buffers.
The hook performs no map writes. -/
def ocx_enforce_send (s : State) (env : Env) (size : Nat) :
    Int × List socket_event × List escrow_event :=
  let pid := env.pid
  -- 1. Look up verdict from cache; 2. check trust level
  let verdict := s.verdict_cache pid
  let trust := (s.trust_cache pid).getD 50
  -- 3. Enforcement logic
  if verdict = some ACTION_BLOCK then
    let ident := s.identity_cache pid
    let tenant_id := match ident with | some i => i.tenant_id | none => 0
    let bin_hash := match ident with | some i => i.binary_hash | none => 0
    let evs :=
      if env.events_ok then
        [{ pid := pid, tid := env.tid, cgroup_id := env.cgroup_id,
           timestamp := env.timestamp, binary_hash := bin_hash,
           tenant_id := tenant_id, action := ACTION_BLOCK,
           trust_level := trust, data_size := size,
           blocked := 1 : socket_event }]
      else []
    (-EPERM, evs, [])
  else if verdict = some ACTION_HOLD then
    (-EAGAIN, [], [])
  else
    -- AOCS tool classification check
    let entitlements := (s.entitlement_cache pid).getD 0
    let ident := s.identity_cache pid
    let tenant_id := match ident with | some i => i.tenant_id | none => 0
    let bin_hash := match ident with | some i => i.binary_hash | none => 0
    -- heuristic: trust < 65 AND large payload = Class B
    if trust < 65 ∧ 1024 < size then
      let escrow :=
        if env.escrow_ok then
          [{ pid := pid, tid := env.tid, cgroup_id := env.cgroup_id,
             timestamp := env.timestamp, tool_id_hash := 0,
             action_class := CLASS_B, tenant_id := tenant_id,
             binary_hash := bin_hash, trust_level := trust,
             reversibility_index := 5, required_entitlements := 0,
             present_entitlements := entitlements, entitlement_valid := 1,
             data_size := size, verdict := 0 : escrow_event }]
        else []
      (-EAGAIN, [], escrow)
    -- 4. Trust-based enforcement
    else if trust < 30 then
      (-EPERM, [], [])
    else
      -- 5. Allow traffic; log allowed event
      let ident2 := s.identity_cache pid
      let evs :=
        if env.events_ok then
          [{ pid := pid, tid := env.tid, cgroup_id := env.cgroup_id,
             timestamp := env.timestamp,
             binary_hash := match ident2 with | some i => i.binary_hash | none => 0,
             tenant_id := match ident2 with | some i => i.tenant_id | none => 0,
             action := ACTION_ALLOW, trust_level := trust,
             data_size := size, blocked := 0 : socket_event }]
        else []
      (0, evs, [])

/-- `ocx_enforce_connect` (interceptor.bpf.c lines 291-314): LSM hook on
`socket_connect`.  The hook body contains no ring-buffer operation, so
its event list is always empty; it performs no map writes. -/
def ocx_enforce_connect (s : State) (pid : Nat) :
    Int × List socket_event :=
  if s.verdict_cache pid = some ACTION_BLOCK then
    (-EPERM, [])
  else
    let trust := (s.trust_cache pid).getD 50
    if trust < 30 then (-EPERM, [])
    else (0, [])

/-- `handle_exit` (interceptor.bpf.c lines 320-333): tracepoint on
`sched_process_exit`.  Deletes the pid from `verdict_cache`,
`identity_cache` and `trust_cache` — and from no other map. -/
def handle_exit (s : State) (pid : Nat) : State :=
  { verdict_cache := mapDelete s.verdict_cache pid,
    identity_cache := mapDelete s.identity_cache pid,
    trust_cache := mapDelete s.trust_cache pid,
    tool_registry := s.tool_registry,
    entitlement_cache := s.entitlement_cache }

/-- `capture_binary_hash` (interceptor.bpf.c lines 339-367): kprobe on
`do_execve`.  Stores a placeholder identity (tenant 0), seeds the
verdict to ACTION_HOLD and the trust level to 50. -/
def capture_binary_hash (s : State) (pid : Nat) : State :=
  let binary_hash := pid * 0x123456789ABCDEF % 2 ^ 64
  let ident : identity_t := { binary_hash := binary_hash, tenant_id := 0 }
  { s with
    identity_cache := mapUpdate s.identity_cache pid ident,
    verdict_cache := mapUpdate s.verdict_cache pid ACTION_HOLD,
    trust_cache := mapUpdate s.trust_cache pid 50 }

end OCX

namespace IdentityCore

/-- Identity value stored in `pid_identity_map`
(identity_map_core.bpf.c lines 13-19).  The fixed-size
`char agent_id[36]` is modelled as a `String`. -/
structure identity_t where
  agent_id : String
  trust_level : Nat
  spiffe_svid_hash : Nat
  registered_at : Nat
  parent_pid : Nat
deriving DecidableEq

/-- Perf event sent to userspace (identity_map_core.bpf.c lines 38-44).
`event_type`: 0 = fork, 1 = exec, 2 = exit, 3 = lookup. -/
structure identity_event where
  pid : Nat
  parent_pid : Nat
  event_type : Nat
  agent_id : String
  timestamp : Nat
deriving DecidableEq

/-- The maps of identity_map_core.bpf.c: `pid_identity_map` and the
single-slot `identity_stats` counter (`inc_stat` always bumps slot 0,
whatever its argument). -/
structure CoreState where
  pid_identity_map : Nat → Option identity_t
  identity_stats : Nat

/-- `trace_fork` (identity_map_core.bpf.c lines 63-94): tracepoint on
`sched_process_fork`.  If the parent has an identity, copy it to the
child with the parent-pointer overwritten, emit a fork event, and bump
the stats counter; otherwise no-op. -/
def trace_fork (s : CoreState) (parent_pid child_pid ts : Nat) :
    CoreState × List identity_event :=
  match s.pid_identity_map parent_pid with
  | none => (s, [])
  | some parent_id =>
    let child_id := { parent_id with parent_pid := parent_pid }
    let event : identity_event :=
      { pid := child_pid, parent_pid := parent_pid, event_type := 0,
        agent_id := parent_id.agent_id, timestamp := ts }
    ({ pid_identity_map := OCX.mapUpdate s.pid_identity_map child_pid child_id,
       identity_stats := s.identity_stats + 1 }, [event])

/-- `trace_exec` (identity_map_core.bpf.c lines 97-120): tracepoint on
`sched_process_exec`.  Identity persists across exec; an exec event is
emitted when the pid has one. -/
def trace_exec (s : CoreState) (pid ts : Nat) :
    CoreState × List identity_event :=
  match s.pid_identity_map pid with
  | none => (s, [])
  | some id =>
    let event : identity_event :=
      { pid := pid, parent_pid := id.parent_pid, event_type := 1,
        agent_id := id.agent_id, timestamp := ts }
    ({ s with identity_stats := s.identity_stats + 1 }, [event])

/-- Primitive effects performed by `trace_exit`, in program order. -/
inductive ExitOp where
  | emit (e : identity_event)
  | delete_identity (pid : Nat)
  | bump_stats
deriving DecidableEq

/-- The sequence of effects `trace_exit` performs, in the order the C
executes them (identity_map_core.bpf.c lines 123-149): when the pid has
an identity, the exit event is emitted first, then the map entry is
deleted, then the stats counter is bumped; otherwise nothing happens. -/
def trace_exit_ops (s : CoreState) (pid ts : Nat) : List ExitOp :=
  match s.pid_identity_map pid with
  | none => []
  | some id =>
    [ExitOp.emit { pid := pid, parent_pid := id.parent_pid,
                   event_type := 2, agent_id := id.agent_id,
                   timestamp := ts },
     ExitOp.delete_identity pid,
     ExitOp.bump_stats]

/-- Interpreter for one `ExitOp` over the core state and the list of
events emitted so far. -/
def applyExitOp (acc : CoreState × List identity_event) (op : ExitOp) :
    CoreState × List identity_event :=
  match op with
  | ExitOp.emit e => (acc.1, acc.2 ++ [e])
  | ExitOp.delete_identity p =>
    ({ acc.1 with pid_identity_map := OCX.mapDelete acc.1.pid_identity_map p },
     acc.2)
  | ExitOp.bump_stats =>
    ({ acc.1 with identity_stats := acc.1.identity_stats + 1 }, acc.2)

/-- `trace_exit` (identity_map_core.bpf.c lines 123-149): tracepoint on
`sched_process_exit`, defined as the execution of its effect sequence. -/
def trace_exit (s : CoreState) (pid ts : Nat) :
    CoreState × List identity_event :=
  List.foldl applyExitOp (s, []) (trace_exit_ops s pid ts)

end IdentityCore

namespace OCX

/-- Combined state of the two embedded BPF programs. -/
structure SysState where
  icpt : State
  core : IdentityCore.CoreState

/-- Both exit hooks are attached to the `sched_process_exit` tracepoint:
`handle_exit` (interceptor.bpf.c) and `trace_exit`
(identity_map_core.bpf.c) both run when a process exits.  They touch
disjoint maps, so their relative order is immaterial. -/
def sys_exit (s : SysState) (pid ts : Nat) :
    SysState × List IdentityCore.identity_event :=
  let r := IdentityCore.trace_exit s.core pid ts
  ({ icpt := handle_exit s.icpt pid, core := r.1 }, r.2)

/-- The `sched_process_fork` tracepoint runs `trace_fork`
(identity_map_core.bpf.c); interceptor.bpf.c attaches no fork hook, so
its maps are untouched by a fork. -/
def sys_fork (s : SysState) (parent_pid child_pid ts : Nat) :
    SysState × List IdentityCore.identity_event :=
  let r := IdentityCore.trace_fork s.core parent_pid child_pid ts
  ({ icpt := s.icpt, core := r.1 }, r.2)

/-- The empty interceptor state: all maps empty. -/
def emptyState : State :=
  { verdict_cache := fun _ => none,
    identity_cache := fun _ => none,
    trust_cache := fun _ => none,
    tool_registry := fun _ => none,
    entitlement_cache := fun _ => none }

/-- The empty identity-core state. -/
def emptyCore : IdentityCore.CoreState :=
  { pid_identity_map := fun _ => none, identity_stats := 0 }

/-- A kernel context for the given pid, with both ring-buffer
reservations succeeding. -/
def mkEnv (pid : Nat) : Env :=
  { pid := pid, tid := pid, cgroup_id := 0, timestamp := 0,
    events_ok := true, escrow_ok := true }

/-- Interceptor state in which pid 7 is on Hold and nothing else is set. -/
def cexHoldState : State :=
  { emptyState with
    verdict_cache := mapUpdate emptyState.verdict_cache 7 ACTION_HOLD }

/-- Interceptor state in which pid 3 is Blocked and nothing else is set. -/
def cexBlockState : State :=
  { emptyState with
    verdict_cache := mapUpdate emptyState.verdict_cache 3 ACTION_BLOCK }

/-- Interceptor state in which pid 9 has trust 20 and no verdict. -/
def cexTrustState : State :=
  { emptyState with
    trust_cache := mapUpdate emptyState.trust_cache 9 20 }

/-- Interceptor state in which pid 4 has trust 10 and no verdict. -/
def cexFloorState : State :=
  { emptyState with
    trust_cache := mapUpdate emptyState.trust_cache 4 10 }

/-- Interceptor state for the Class B scenario: pid 2 has trust 60,
an identity and an entitlement bitmask, and no verdict. -/
def c5State : State :=
  { emptyState with
    trust_cache := mapUpdate emptyState.trust_cache 2 60,
    entitlement_cache := mapUpdate emptyState.entitlement_cache 2 6,
    identity_cache :=
      mapUpdate emptyState.identity_cache 2
        { binary_hash := 9, tenant_id := 8 } }

/-- Identity-core state in which pid 5 carries an agent identity. -/
def c6Core : IdentityCore.CoreState :=
  { pid_identity_map :=
      mapUpdate (fun _ => none) 5
        { agent_id := "agent-a", trust_level := 9000,
          spiffe_svid_hash := 77, registered_at := 123, parent_pid := 1 },
    identity_stats := 0 }

/-- Combined state in which pid 5 is fully tracked: exec-capture has run
in the interceptor and the identity core carries its agent record. -/
def c6State : SysState :=
  { icpt := capture_binary_hash emptyState 5, core := c6Core }

/-- Combined state in which pid 5 is fully tracked and additionally
holds an entitlement bitmask of 3. -/
def c7State : SysState :=
  { icpt :=
      { capture_binary_hash emptyState 5 with
        entitlement_cache := mapUpdate emptyState.entitlement_cache 5 3 },
    core := c6Core }

/-- Identity-core state in which pid 1 carries an agent identity. -/
def c8Core : IdentityCore.CoreState :=
  { pid_identity_map :=
      mapUpdate (fun _ => none) 1
        { agent_id := "agent-b", trust_level := 8000,
          spiffe_svid_hash := 3, registered_at := 4, parent_pid := 0 },
    identity_stats := 0 }

/-- Combined state in which the parent pid 1 is tracked in both identity
maps (the identity core's `pid_identity_map` and the interceptor's
`identity_cache`). -/
def parentSys : SysState :=
  { icpt :=
      { emptyState with
        identity_cache :=
          mapUpdate emptyState.identity_cache 1
            { binary_hash := 42, tenant_id := 7 } },
    core := c8Core }

/-- Interceptor state differing from `emptyState` only in the identity
and entitlement maps for pid 1. -/
def c10State : State :=
  { emptyState with
    entitlement_cache := mapUpdate emptyState.entitlement_cache 1 9,
    identity_cache :=
      mapUpdate emptyState.identity_cache 1
        { binary_hash := 5, tenant_id := 6 } }

end OCX

namespace OCX

/-- C1 (counterexample): with verdict(7) = Hold and no trust entry
(default 50), an intercepted connect for pid 7 is admitted (returns 0),
not denied with the transient error -EAGAIN, refuting the claim that
every intercepted connect for a Hold process is transiently denied. -/
theorem hold_connect_admitted_cex :
    (ocx_enforce_connect cexHoldState 7).1 = 0 ∧
    (ocx_enforce_connect cexHoldState 7).1 ≠ -EAGAIN := by
  decide

/-- C1 (amended): for a process whose verdict entry is Hold, every
intercepted send is denied with -EAGAIN (never -EPERM, never admitted)
and emits no event; the connect hook, however, never inspects the Hold
verdict: it denies with -EPERM exactly when trust is below 30 and admits
otherwise. -/
theorem hold_send_transient_connect_ignores_hold (s : State) (env : Env)
    (size : Nat) (h : s.verdict_cache env.pid = some ACTION_HOLD) :
    ocx_enforce_send s env size = (-EAGAIN, [], []) ∧
    ocx_enforce_connect s env.pid =
      (if (s.trust_cache env.pid).getD 50 < 30 then (-EPERM, [])
       else (0, [])) := by
  constructor
  · simp [ocx_enforce_send, h, ACTION_HOLD, ACTION_BLOCK]
  · simp [ocx_enforce_connect, h, ACTION_HOLD, ACTION_BLOCK]

/-- C1 (witness): the amended theorem applied at a concrete Hold state. -/
theorem hold_send_transient_witness :
    cexHoldState.verdict_cache 7 = some ACTION_HOLD ∧
    ocx_enforce_send cexHoldState (mkEnv 7) 5 = (-EAGAIN, [], []) := by
  exact ⟨by decide,
    (hold_send_transient_connect_ignores_hold cexHoldState (mkEnv 7) 5
      (by decide)).1⟩

/-- C2 (counterexample): with verdict(3) = Block, an intercepted connect
for pid 3 is denied with -EPERM but the connect hook emits no audit
event at all, refuting the claim that every Block denial produces an
audit event with blocked = true. -/
theorem block_connect_no_event_cex :
    (ocx_enforce_connect cexBlockState 3).1 = -EPERM ∧
    (ocx_enforce_connect cexBlockState 3).2 = [] := by
  decide

/-- C2 (amended): for a process whose verdict entry is Block, send and
connect are both denied with -EPERM; the send hook emits an audit event
with blocked = 1 (when the ring-buffer reservation succeeds), while the
connect hook emits no audit event. -/
theorem block_denies_hard_send_event_connect_silent (s : State)
    (env : Env) (size : Nat)
    (h : s.verdict_cache env.pid = some ACTION_BLOCK)
    (hev : env.events_ok = true) :
    ocx_enforce_send s env size =
      (-EPERM,
       [{ pid := env.pid, tid := env.tid, cgroup_id := env.cgroup_id,
          timestamp := env.timestamp,
          binary_hash :=
            (match s.identity_cache env.pid with
             | some i => i.binary_hash
             | none => 0),
          tenant_id :=
            (match s.identity_cache env.pid with
             | some i => i.tenant_id
             | none => 0),
          action := ACTION_BLOCK,
          trust_level := (s.trust_cache env.pid).getD 50,
          data_size := size, blocked := 1 }], []) ∧
    ocx_enforce_connect s env.pid = (-EPERM, []) := by
  constructor
  · simp [ocx_enforce_send, h, hev]
  · simp [ocx_enforce_connect, h]

/-- C2 (witness): the amended theorem applied at a concrete Block state. -/
theorem block_send_event_witness :
    cexBlockState.verdict_cache 3 = some ACTION_BLOCK ∧
    (ocx_enforce_send cexBlockState (mkEnv 3) 10).1 = -EPERM ∧
    (ocx_enforce_send cexBlockState (mkEnv 3) 10).2.1.length = 1 := by
  have h := block_denies_hard_send_event_connect_silent cexBlockState
    (mkEnv 3) 10 (by decide) (by decide)
  exact ⟨by decide, by rw [h.1], by rw [h.1]; rfl⟩

/-- C3 (counterexample): with trust(9) = 20 and no verdict, a send of
2048 bytes by pid 9 is denied with -EAGAIN (the Class B heuristic fires
first), not with the hard error -EPERM, refuting the claim that every
payload size is hard-denied under the trust floor. -/
theorem low_trust_large_send_not_hard_cex :
    (ocx_enforce_send cexTrustState (mkEnv 9) 2048).1 = -EAGAIN ∧
    (ocx_enforce_send cexTrustState (mkEnv 9) 2048).1 ≠ -EPERM := by
  decide

/-- C3 (amended): for a process with an explicit trust entry below 30
and verdict NoVerdict or Allow, every connect is denied with -EPERM and
every send of at most 1024 bytes is denied with -EPERM; a send of more
than 1024 bytes instead matches the Class B heuristic (trust < 65) and
is denied transiently with -EAGAIN. -/
theorem low_trust_send_hard_small_transient_large (s : State) (env : Env)
    (size t : Nat) (ht : s.trust_cache env.pid = some t) (h30 : t < 30)
    (hv : s.verdict_cache env.pid = none ∨
          s.verdict_cache env.pid = some ACTION_ALLOW) :
    (size ≤ 1024 → ocx_enforce_send s env size = (-EPERM, [], [])) ∧
    (1024 < size → (ocx_enforce_send s env size).1 = -EAGAIN) ∧
    (ocx_enforce_connect s env.pid).1 = -EPERM := by
  have h65 : t < 65 := by omega
  have hvb : s.verdict_cache env.pid ≠ some ACTION_BLOCK := by
    rcases hv with h | h <;> simp [h, ACTION_ALLOW, ACTION_BLOCK]
  have hvh : s.verdict_cache env.pid ≠ some ACTION_HOLD := by
    rcases hv with h | h <;> simp [h, ACTION_ALLOW, ACTION_HOLD]
  refine ⟨fun hsz => ?_, fun hsz => ?_, ?_⟩
  · have hns : ¬ 1024 < size := by omega
    simp [ocx_enforce_send, hvb, hvh, ht, h30, hns]
  · simp [ocx_enforce_send, hvb, hvh, ht, h65, hsz]
  · simp [ocx_enforce_connect, hvb, ht, h30]

/-- C3 (witness): the amended theorem applied at a concrete low-trust
state, small payload. -/
theorem low_trust_small_send_hard_witness :
    cexTrustState.trust_cache 9 = some 20 ∧
    ocx_enforce_send cexTrustState (mkEnv 9) 100 = (-EPERM, [], []) ∧
    (ocx_enforce_connect cexTrustState 9).1 = -EPERM := by
  have h := low_trust_send_hard_small_transient_large cexTrustState
    (mkEnv 9) 100 20 (by decide) (by decide) (Or.inl (by decide))
  exact ⟨by decide, h.1 (by decide), h.2.2⟩

/-- C4 (counterexample): with trust(4) = 10 and no verdict, a send of 0
bytes by pid 4 is hard-denied with -EPERM via the trust floor, yet no
enforcement audit event is emitted, refuting the claim that every
hard-denied action emits an audit event (and in particular that the
trust-floor denial does). -/
theorem trust_floor_denial_no_event_cex :
    (ocx_enforce_send cexFloorState (mkEnv 4) 0).1 = -EPERM ∧
    (ocx_enforce_send cexFloorState (mkEnv 4) 0).2.1 = [] := by
  decide

/-- C4 (amended): enforcement audit events are emitted by exactly two
paths of the send hook — the Block denial (blocked = 1) and the admit
path (blocked = 0) — each carrying pid, tid, cgroup id, timestamp,
tenant, binary hash, action, trust and payload size; the Hold path, the
Class B path and the trust-floor hard denial emit no enforcement audit
event, and the connect hook emits none on any path. -/
theorem audit_emission_paths (s : State) (env : Env) (size : Nat)
    (hev : env.events_ok = true) :
    (s.verdict_cache env.pid = some ACTION_BLOCK →
      (ocx_enforce_send s env size).2.1 =
        [{ pid := env.pid, tid := env.tid, cgroup_id := env.cgroup_id,
           timestamp := env.timestamp,
           binary_hash :=
             (match s.identity_cache env.pid with
              | some i => i.binary_hash
              | none => 0),
           tenant_id :=
             (match s.identity_cache env.pid with
              | some i => i.tenant_id
              | none => 0),
           action := ACTION_BLOCK,
           trust_level := (s.trust_cache env.pid).getD 50,
           data_size := size, blocked := 1 }]) ∧
    (s.verdict_cache env.pid = some ACTION_HOLD →
      (ocx_enforce_send s env size).2.1 = []) ∧
    (s.verdict_cache env.pid ≠ some ACTION_BLOCK →
     s.verdict_cache env.pid ≠ some ACTION_HOLD →
     (s.trust_cache env.pid).getD 50 < 65 → 1024 < size →
      (ocx_enforce_send s env size).2.1 = []) ∧
    (s.verdict_cache env.pid ≠ some ACTION_BLOCK →
     s.verdict_cache env.pid ≠ some ACTION_HOLD →
     ¬((s.trust_cache env.pid).getD 50 < 65 ∧ 1024 < size) →
     (s.trust_cache env.pid).getD 50 < 30 →
      ocx_enforce_send s env size = (-EPERM, [], [])) ∧
    (s.verdict_cache env.pid ≠ some ACTION_BLOCK →
     s.verdict_cache env.pid ≠ some ACTION_HOLD →
     ¬((s.trust_cache env.pid).getD 50 < 65 ∧ 1024 < size) →
     30 ≤ (s.trust_cache env.pid).getD 50 →
      ocx_enforce_send s env size =
        (0,
         [{ pid := env.pid, tid := env.tid, cgroup_id := env.cgroup_id,
            timestamp := env.timestamp,
            binary_hash :=
              (match s.identity_cache env.pid with
               | some i => i.binary_hash
               | none => 0),
            tenant_id :=
              (match s.identity_cache env.pid with
               | some i => i.tenant_id
               | none => 0),
            action := ACTION_ALLOW,
            trust_level := (s.trust_cache env.pid).getD 50,
            data_size := size, blocked := 0 }], [])) ∧
    (∀ q, (ocx_enforce_connect s q).2 = []) := by
  refine ⟨fun hb => ?_, fun hh => ?_, fun hb hh h65 hsz => ?_,
          fun hb hh hcb h30 => ?_, fun hb hh hcb h30 => ?_, fun q => ?_⟩
  · simp [ocx_enforce_send, hb, hev]
  · have hb : s.verdict_cache env.pid ≠ some ACTION_BLOCK := by
      simp [hh, ACTION_HOLD, ACTION_BLOCK]
    simp [ocx_enforce_send, hb, hh, ACTION_HOLD, ACTION_BLOCK]
  · simp [ocx_enforce_send, hb, hh, h65, hsz]
  · have h30' : (s.trust_cache env.pid).getD 50 < 30 := h30
    simp [ocx_enforce_send, hb, hh, hcb, h30']
  · have h30' : ¬ (s.trust_cache env.pid).getD 50 < 30 := by omega
    simp [ocx_enforce_send, hb, hh, hcb, h30', hev]
  · simp only [ocx_enforce_connect]
    split_ifs <;> rfl

/-- C4 (witness): the amended theorem applied at the empty state
(default trust 50, no verdict) — the admit path emits exactly one event
and the connect hook emits none. -/
theorem audit_emission_witness :
    (ocx_enforce_send emptyState (mkEnv 1) 100).2.1.length = 1 ∧
    (ocx_enforce_connect emptyState 1).2 = [] := by
  have h := audit_emission_paths emptyState (mkEnv 1) 100 (by decide)
  have h2 := h.2.2.2.2.1 (by decide) (by decide) (by decide) (by decide)
  exact ⟨by rw [h2]; rfl, h.2.2.2.2.2 1⟩

/-- C5: for a send by a process with verdict NoVerdict or Allow, trust
exactly 60 and payload size 2048, the Class B heuristic fires: exactly
one escrow record with verdict tag 0 (pending) is emitted on the escrow
channel, carrying the process's trust, entitlements, tenant, binary
hash and payload size, no enforcement audit event is emitted, and the
action is denied with -EAGAIN — neither -EPERM nor an admit. -/
theorem class_b_heuristic_escrow (s : State) (env : Env)
    (hv : s.verdict_cache env.pid = none ∨
          s.verdict_cache env.pid = some ACTION_ALLOW)
    (ht : s.trust_cache env.pid = some 60)
    (hesc : env.escrow_ok = true) :
    (ocx_enforce_send s env 2048).1 = -EAGAIN ∧
    (ocx_enforce_send s env 2048).1 ≠ -EPERM ∧
    (ocx_enforce_send s env 2048).1 ≠ 0 ∧
    (ocx_enforce_send s env 2048).2.1 = [] ∧
    (ocx_enforce_send s env 2048).2.2 =
      [{ pid := env.pid, tid := env.tid, cgroup_id := env.cgroup_id,
         timestamp := env.timestamp, tool_id_hash := 0,
         action_class := CLASS_B,
         tenant_id :=
           (match s.identity_cache env.pid with
            | some i => i.tenant_id
            | none => 0),
         binary_hash :=
           (match s.identity_cache env.pid with
            | some i => i.binary_hash
            | none => 0),
         trust_level := 60, reversibility_index := 5,
         required_entitlements := 0,
         present_entitlements := (s.entitlement_cache env.pid).getD 0,
         entitlement_valid := 1, data_size := 2048, verdict := 0 }] := by
  have hvb : s.verdict_cache env.pid ≠ some ACTION_BLOCK := by
    rcases hv with h | h <;> simp [h, ACTION_ALLOW, ACTION_BLOCK]
  have hvh : s.verdict_cache env.pid ≠ some ACTION_HOLD := by
    rcases hv with h | h <;> simp [h, ACTION_ALLOW, ACTION_HOLD]
  refine ⟨?_, ?_, ?_, ?_, ?_⟩ <;>
    simp [ocx_enforce_send, hvb, hvh, ht, hesc, EAGAIN, EPERM]

/-- C5 (witness): the theorem applied at a concrete state with trust 60,
an identity record and an entitlement bitmask for pid 2. -/
theorem class_b_escrow_witness :
    c5State.trust_cache 2 = some 60 ∧
    (ocx_enforce_send c5State (mkEnv 2) 2048).1 = -EAGAIN ∧
    (ocx_enforce_send c5State (mkEnv 2) 2048).2.2.length = 1 := by
  have h := class_b_heuristic_escrow c5State (mkEnv 2)
    (Or.inl (by decide)) (by decide) (by decide)
  exact ⟨by decide, h.1, by rw [h.2.2.2.2]; rfl⟩

/-- C6: after the two exit hooks run for a pid, its entries in the
interceptor's identity, verdict and trust maps and in the identity
core's `pid_identity_map` are all absent; and whenever the pid had an
identity record, the effect sequence of `trace_exit` emits the exit
event strictly before deleting the identity entry, and that event is
the one delivered to userspace. -/
theorem exit_purges_state_and_orders_event (s : SysState) (pid ts : Nat) :
    (sys_exit s pid ts).1.icpt.identity_cache pid = none ∧
    (sys_exit s pid ts).1.icpt.verdict_cache pid = none ∧
    (sys_exit s pid ts).1.icpt.trust_cache pid = none ∧
    (sys_exit s pid ts).1.core.pid_identity_map pid = none ∧
    (∀ id, s.core.pid_identity_map pid = some id →
      IdentityCore.trace_exit_ops s.core pid ts =
        [IdentityCore.ExitOp.emit
           { pid := pid, parent_pid := id.parent_pid, event_type := 2,
             agent_id := id.agent_id, timestamp := ts },
         IdentityCore.ExitOp.delete_identity pid,
         IdentityCore.ExitOp.bump_stats] ∧
      (sys_exit s pid ts).2 =
        [{ pid := pid, parent_pid := id.parent_pid, event_type := 2,
           agent_id := id.agent_id, timestamp := ts }]) := by
  refine ⟨?_, ?_, ?_, ?_, fun id hid => ⟨?_, ?_⟩⟩
  · simp [sys_exit, handle_exit, mapDelete]
  · simp [sys_exit, handle_exit, mapDelete]
  · simp [sys_exit, handle_exit, mapDelete]
  · cases hid : s.core.pid_identity_map pid with
    | none =>
      simp [sys_exit, IdentityCore.trace_exit, IdentityCore.trace_exit_ops,
            hid, IdentityCore.applyExitOp, hid]
    | some id =>
      simp [sys_exit, IdentityCore.trace_exit, IdentityCore.trace_exit_ops,
            hid, IdentityCore.applyExitOp, mapDelete]
  · simp [IdentityCore.trace_exit_ops, hid]
  · simp [sys_exit, IdentityCore.trace_exit, IdentityCore.trace_exit_ops,
          hid, IdentityCore.applyExitOp]

/-- C6 (witness): the theorem applied at a concrete tracked pid 5. -/
theorem exit_purges_witness :
    (sys_exit c6State 5 9).1.icpt.verdict_cache 5 = none ∧
    (sys_exit c6State 5 9).1.core.pid_identity_map 5 = none ∧
    IdentityCore.trace_exit_ops c6State.core 5 9 =
      [IdentityCore.ExitOp.emit
         { pid := 5, parent_pid := 1, event_type := 2,
           agent_id := "agent-a", timestamp := 9 },
       IdentityCore.ExitOp.delete_identity 5,
       IdentityCore.ExitOp.bump_stats] := by
  have h := exit_purges_state_and_orders_event c6State 5 9
  exact ⟨h.2.1, h.2.2.2.1,
    (h.2.2.2.2 { agent_id := "agent-a", trust_level := 9000,
                 spiffe_svid_hash := 77, registered_at := 123,
                 parent_pid := 1 } (by decide)).1⟩

/-- C7 (code bug, evaluated at the failing input): pid 5 exits while
holding entitlement bitmask 3; after both exit hooks run, the verdict,
identity and trust entries are gone but the `entitlement_cache` entry
for pid 5 survives untouched — `handle_exit` never deletes it, although
its own comment says it cleans up all caches for the pid to prevent PID
recycling attacks. -/
theorem exit_leaves_entitlement_entry :
    (sys_exit c7State 5 0).1.icpt.entitlement_cache 5 = some 3 ∧
    (sys_exit c7State 5 0).1.icpt.verdict_cache 5 = none ∧
    (sys_exit c7State 5 0).1.icpt.trust_cache 5 = none ∧
    (sys_exit c7State 5 0).1.icpt.identity_cache 5 = none := by
  decide

/-- C8 (counterexample): parent pid 1 is tracked in both identity maps;
after `trace_fork` creates child pid 2, the child is present in the
identity core's `pid_identity_map`, yet the interceptor's
`identity_cache` — the map the send/connect enforcement hooks actually
consult — has no entry for the child, and a send by the child is
processed with the absent-identity defaults (tenant 0, binary hash 0),
refuting the claim that no hook observes the child without an identity. -/
theorem fork_child_unknown_to_enforcement_cex :
    ((sys_fork parentSys 1 2 55).1.core.pid_identity_map 2).isSome = true ∧
    (sys_fork parentSys 1 2 55).1.icpt.identity_cache 2 = none ∧
    (ocx_enforce_send (sys_fork parentSys 1 2 55).1.icpt (mkEnv 2) 100).2.1 =
      [{ pid := 2, tid := 2, cgroup_id := 0, timestamp := 0,
         binary_hash := 0, tenant_id := 0, action := ACTION_ALLOW,
         trust_level := 50, data_size := 100, blocked := 0 }] := by
  decide

/-- C8 (amended): when the parent has a record in the identity core's
`pid_identity_map`, the fork hook itself synchronously stores the
child's copy (parent-pointer overwritten to the parent) and emits the
fork event, so no hook of the identity-propagation module ever sees the
child without a record; the interceptor's maps — including the
`identity_cache` consulted by the enforcement hooks — are untouched by
fork, so the enforcement hooks can still find the child's identity
absent until the child execs. -/
theorem fork_propagates_core_identity_only (s : SysState)
    (P C ts : Nat) (idP : IdentityCore.identity_t)
    (h : s.core.pid_identity_map P = some idP) :
    (sys_fork s P C ts).1.core.pid_identity_map C =
      some { idP with parent_pid := P } ∧
    (sys_fork s P C ts).1.icpt = s.icpt ∧
    (sys_fork s P C ts).2 =
      [{ pid := C, parent_pid := P, event_type := 0,
         agent_id := idP.agent_id, timestamp := ts }] := by
  refine ⟨?_, rfl, ?_⟩ <;>
    simp [sys_fork, IdentityCore.trace_fork, h, mapUpdate]

/-- C8 (witness): the amended theorem applied at the concrete parent
state. -/
theorem fork_propagates_witness :
    (sys_fork parentSys 1 2 55).1.core.pid_identity_map 2 =
      some { agent_id := "agent-b", trust_level := 8000,
             spiffe_svid_hash := 3, registered_at := 4,
             parent_pid := 1 } := by
  exact (fork_propagates_core_identity_only parentSys 1 2 55
    { agent_id := "agent-b", trust_level := 8000, spiffe_svid_hash := 3,
      registered_at := 4, parent_pid := 0 } (by decide)).1

/-- C9: `capture_binary_hash` registers an identity record with tenant
id 0 (and the placeholder binary hash), seeds the trust level to 50 and
the verdict to Hold; and it is the only code path that writes a value
into the trust or verdict maps — the enforcement hooks perform no map
writes at all (their embeddings return no state), and the exit hook
only deletes: any value present after `handle_exit` was already there
before. -/
theorem capture_seeds_defaults_and_sole_writer (s s2 : State)
    (q pid r v : Nat) :
    (capture_binary_hash s q).identity_cache q =
      some { binary_hash := q * 0x123456789ABCDEF % 2 ^ 64,
             tenant_id := 0 } ∧
    (capture_binary_hash s q).trust_cache q = some 50 ∧
    (capture_binary_hash s q).verdict_cache q = some ACTION_HOLD ∧
    ((handle_exit s2 pid).trust_cache r = some v →
      s2.trust_cache r = some v) ∧
    ((handle_exit s2 pid).verdict_cache r = some v →
      s2.verdict_cache r = some v) := by
  refine ⟨?_, ?_, ?_, fun h => ?_, fun h => ?_⟩
  · simp [capture_binary_hash, mapUpdate]
  · simp [capture_binary_hash, mapUpdate]
  · simp [capture_binary_hash, mapUpdate]
  · simp only [handle_exit, mapDelete] at h
    split_ifs at h
    exact h
  · simp only [handle_exit, mapDelete] at h
    split_ifs at h
    exact h

/-- C9 (witness): the theorem applied at concrete inputs — capture of
pid 4 from the empty state, and survival of pid 3's Block verdict
through the exit of unrelated pid 7. -/
theorem capture_seeds_witness :
    (capture_binary_hash emptyState 4).trust_cache 4 = some 50 ∧
    (capture_binary_hash emptyState 4).verdict_cache 4 =
      some ACTION_HOLD ∧
    cexBlockState.verdict_cache 3 = some ACTION_BLOCK := by
  have h := capture_seeds_defaults_and_sole_writer emptyState
    cexBlockState 4 7 3 ACTION_BLOCK
  exact ⟨h.2.1, h.2.2.1, h.2.2.2.2 (by decide)⟩

/-- C10: the admit/deny/hold decision of the send hook depends only on
the calling process's verdict entry, trust entry and the payload size —
two states agreeing on those two map entries yield the same return
value even if their tool registries, entitlement maps and identity maps
(and all other pids' entries) differ arbitrarily, since those maps are
read only to fill audit and escrow event fields. -/
theorem send_decision_noninterference (s1 s2 : State) (env : Env)
    (size : Nat)
    (hv : s1.verdict_cache env.pid = s2.verdict_cache env.pid)
    (ht : s1.trust_cache env.pid = s2.trust_cache env.pid) :
    (ocx_enforce_send s1 env size).1 = (ocx_enforce_send s2 env size).1 := by
  simp only [ocx_enforce_send]
  rw [hv, ht]
  split_ifs <;> rfl

/-- C10 (witness): the theorem applied to the empty state and a state
that differs from it only in the identity and entitlement maps. -/
theorem send_decision_noninterference_witness :
    (ocx_enforce_send c10State (mkEnv 1) 100).1 =
      (ocx_enforce_send emptyState (mkEnv 1) 100).1 := by
  exact send_decision_noninterference c10State emptyState (mkEnv 1) 100
    (by decide) (by decide)

end OCX
